import Mathlib

/-
A shallow embedding of system/vold KeyUtil.cpp (fscrypt key management).

Kernel and collaborator effects (ioctls, keyctl syscalls, the random
source, the key-storage service) are modelled as explicit environment
records of oracle functions; each C++ function becomes a pure Lean
function of its environment and arguments, returning its boolean result
together with the observable effects the claims talk about (which key
names were inserted, which specifier was passed to the remove ioctl,
which sleep delays were used, and so on).  Machine bytes are Nat.
-/

namespace VoldKeyUtil

/-- Constants from linux/fscrypt.h and openssl/sha.h used by KeyUtil.cpp. -/
def FSCRYPT_MAX_KEY_SIZE : Nat := 64

def FSCRYPT_KEY_DESCRIPTOR_SIZE : Nat := 8

def FSCRYPT_KEY_IDENTIFIER_SIZE : Nat := 16

def SHA512_DIGEST_LENGTH : Nat := 64

def FSCRYPT_KEY_REMOVAL_STATUS_FLAG_FILES_BUSY : Nat := 1

def FSCRYPT_KEY_REMOVAL_STATUS_FLAG_OTHER_USERS : Nat := 2

def FSCRYPT_KEY_STATUS_INCOMPLETELY_REMOVED : Nat := 3

/-- KeyBuffer: a byte buffer. -/
abbrev KeyBuffer := List Nat

/-- struct KeyGeneration from KeyStorage.h: size, allow_gen, use_hw_wrapped_key. -/
structure KeyGeneration where
  keysize : Nat
  allow_gen : Bool
  use_hw_wrapped_key : Bool
  deriving DecidableEq

/-- EncryptionOptions (android::fscrypt): the fields KeyUtil.cpp reads.
`version` is a C `int`, so modelled as Int (the switch has a default arm). -/
structure EncryptionOptions where
  version : Int
  use_hw_wrapped_key : Bool
  deriving DecidableEq

/-- EncryptionPolicy (android::fscrypt): options plus the raw key reference. -/
structure EncryptionPolicy where
  options : EncryptionOptions
  key_raw_ref : List Nat
  deriving DecidableEq

/-- struct fscrypt_key_specifier: a union tagged descriptor/identifier. -/
inductive KeySpecifier where
  | descriptor (bytes : List Nat)
  | identifier (bytes : List Nat)
  deriving DecidableEq

/-- const KeyGeneration neverGen() { return KeyGeneration{0, false, false}; } -/
def neverGen : KeyGeneration := ⟨0, false, false⟩

/-- Oracle environment for generateStorageKey: the OS random source
(ReadRandomBytes filling a buffer of n bytes; none = failure) and the
secure-hardware collaborator generateWrappedStorageKey. -/
structure GenEnv where
  randFill : Nat → Option (List Nat)
  generateWrapped : Option (List Nat)

/-- randomKey: allocates a key of `size` bytes and fills it from the OS
random source; fails when ReadRandomBytes fails. -/
def randomKey (env : GenEnv) (size : Nat) : Option KeyBuffer :=
  env.randFill size

/-- generateStorageKey (KeyUtil.cpp:60): refuses when generation is not
allowed; for a hardware-wrapped request requires keysize = FSCRYPT_MAX_KEY_SIZE
and delegates to the hardware collaborator; otherwise draws random bytes. -/
def generateStorageKey (env : GenEnv) (gen : KeyGeneration) : Option KeyBuffer :=
  if gen.allow_gen = false then none
  else if gen.use_hw_wrapped_key then
    if gen.keysize ≠ FSCRYPT_MAX_KEY_SIZE then none
    else env.generateWrapped
  else randomKey env gen.keysize

/-- generateKeyRef (KeyUtil.cpp:112): double SHA-512 of the first `length`
bytes of the key, truncated to the descriptor size.  The hash itself is an
explicit function argument (SHA512 always emits SHA512_DIGEST_LENGTH bytes). -/
def generateKeyRef (sha512 : List Nat → List Nat) (key : List Nat) (length : Nat) :
    List Nat :=
  (sha512 (sha512 (key.take length))).take FSCRYPT_KEY_DESCRIPTOR_SIZE

/-- struct fscrypt_key as filled in by fillKey. -/
structure FscryptKey where
  mode : Nat
  raw : List Nat
  size : Nat
  deriving DecidableEq

/-- fillKey (KeyUtil.cpp:130): rejects any key not exactly
FSCRYPT_MAX_KEY_SIZE bytes, otherwise copies it into an fscrypt_key. -/
def fillKey (key : KeyBuffer) : Option FscryptKey :=
  if key.length ≠ FSCRYPT_MAX_KEY_SIZE then none
  else some ⟨0, key, key.length⟩

/-- NAME_PREFIXES = {"ext4", "f2fs", "fscrypt", nullptr}. -/
def NAME_PREFIXES : List String := ["ext4", "f2fs", "fscrypt"]

/-- One lowercase hex digit, as produced by std::hex. -/
def hexDigit (n : Nat) : Char :=
  if n < 10 then Char.ofNat (48 + n) else Char.ofNat (87 + n)

/-- One byte as two lowercase hex digits (std::setw(2), std::setfill('0')). -/
def byteHex (b : Nat) : List Char :=
  [hexDigit (b / 16 % 16), hexDigit (b % 16)]

/-- keyrefstring (KeyUtil.cpp:144): the raw reference, hex encoded. -/
def keyrefstring (raw_ref : List Nat) : String :=
  String.mk (raw_ref.map byteHex).flatten

/-- buildLegacyKeyName (KeyUtil.cpp:152): "<fs-type>:<hex-reference>". -/
def buildLegacyKeyName (pfx : String) (raw_ref : List Nat) : String :=
  pfx ++ ":" ++ keyrefstring raw_ref

/-- The three legacy alias names the install/evict loops iterate over. -/
def legacyKeyNames (raw_ref : List Nat) : List String :=
  NAME_PREFIXES.map (fun p => buildLegacyKeyName p raw_ref)

/-- Oracle environment for the legacy session-keyring path: whether
fscryptKeyring finds the device keyring, and per-name results of
add_key and keyctl_search+keyctl_unlink. -/
structure LegacyEnv where
  keyringFound : Bool
  addKeyOk : String → Bool
  unlinkOk : String → Bool

/-- The add_key loop of installKeyLegacy: returns (overall success,
names actually inserted, in order); stops at the first failed insertion,
leaving the earlier insertions in place. -/
def installAliases (addKeyOk : String → Bool) : List String → Bool × List String
  | [] => (true, [])
  | n :: rest =>
    if addKeyOk n then
      let r := installAliases addKeyOk rest
      (r.1, n :: r.2)
    else (false, [])

/-- installKeyLegacy (KeyUtil.cpp:168): fillKey, find the keyring, then
insert the key under each filesystem-type alias; any failure aborts. -/
def installKeyLegacy (env : LegacyEnv) (key : KeyBuffer) (raw_ref : List Nat) :
    Bool × List String :=
  match fillKey key with
  | none => (false, [])
  | some _ =>
    if env.keyringFound = false then (false, [])
    else installAliases env.addKeyOk (legacyKeyNames raw_ref)

/-- The unlink loop of evictKeyLegacy: attempts every alias even after a
failure, returns (all unlinks succeeded, names attempted in order). -/
def evictAliases (unlinkOk : String → Bool) : List String → Bool × List String
  | [] => (true, [])
  | n :: rest =>
    let ok := unlinkOk n
    let r := evictAliases unlinkOk rest
    (ok && r.1, n :: r.2)

/-- evictKeyLegacy (KeyUtil.cpp:287): find the keyring, then unlink each
filesystem-type alias; per-alias failures do not abort the loop. -/
def evictKeyLegacy (env : LegacyEnv) (raw_ref : List Nat) : Bool × List String :=
  if env.keyringFound = false then (false, [])
  else evictAliases env.unlinkOk (legacyKeyNames raw_ref)

/-- buildKeySpecifier (KeyUtil.cpp:191): v1 needs an 8-byte descriptor,
v2 a 16-byte identifier; anything else is rejected. -/
def buildKeySpecifier (policy : EncryptionPolicy) : Option KeySpecifier :=
  if policy.options.version = 1 then
    if policy.key_raw_ref.length ≠ FSCRYPT_KEY_DESCRIPTOR_SIZE then none
    else some (KeySpecifier.descriptor policy.key_raw_ref)
  else if policy.options.version = 2 then
    if policy.key_raw_ref.length ≠ FSCRYPT_KEY_IDENTIFIER_SIZE then none
    else some (KeySpecifier.identifier policy.key_raw_ref)
  else none

/-- Oracle environment for installKey: the SHA-512 primitive, the cached
kernel capability (isFsKeyringSupported), the legacy keyring oracles, and
the modern path's mountpoint open and FS_IOC_ADD_ENCRYPTION_KEY ioctl.
`addKeyIoctl = some id` means the ioctl succeeded and the kernel left
`id` in arg.key_spec.u.identifier; none means the ioctl failed. -/
structure InstallEnv where
  sha512 : List Nat → List Nat
  fsKeyringSupported : Bool
  legacy : LegacyEnv
  openOk : Bool
  addKeyIoctl : Option (List Nat)

/-- Result of installKey: the returned bool, the final contents of the
caller's `EncryptionPolicy* policy` out-parameter, and the legacy alias
names actually inserted into the session keyring. -/
structure InstallResult where
  ok : Bool
  policy : EncryptionPolicy
  legacyInserted : List String
  deriving DecidableEq

/-- The tail of installKey shared by the v1-modern and v2 arms
(KeyUtil.cpp:260-283): open the mountpoint, issue
FS_IOC_ADD_ENCRYPTION_KEY, and on success for an identifier-typed
specifier copy the kernel-computed identifier into the policy. -/
def installModern (env : InstallEnv) (policy : EncryptionPolicy)
    (spec : KeySpecifier) : InstallResult :=
  if env.openOk = false then ⟨false, policy, []⟩
  else
    match env.addKeyIoctl with
    | none => ⟨false, policy, []⟩
    | some retId =>
      match spec with
      | KeySpecifier.identifier _ => ⟨true, { policy with key_raw_ref := retId }, []⟩
      | KeySpecifier.descriptor _ => ⟨true, policy, []⟩

/-- installKey (KeyUtil.cpp:217).  `policy0` is the caller's policy
out-parameter on entry; the result's `policy` is its contents on exit.
`policy->options = options` happens before everything else; for v1 the
key reference is derived from the first key.size()/2 bytes when the key
is hardware-wrapped and from the whole key otherwise, then the legacy or
modern install path runs; for v2 an empty identifier-typed specifier is
sent and the kernel-computed identifier is stored on success. -/
def installKey (env : InstallEnv) (options : EncryptionOptions)
    (key : KeyBuffer) (policy0 : EncryptionPolicy) : InstallResult :=
  let p1 : EncryptionPolicy := { policy0 with options := options }
  if options.version = 1 then
    let raw_ref :=
      if options.use_hw_wrapped_key then
        generateKeyRef env.sha512 key (key.length / 2)
      else
        generateKeyRef env.sha512 key key.length
    let p2 : EncryptionPolicy := { p1 with key_raw_ref := raw_ref }
    if env.fsKeyringSupported = false then
      let r := installKeyLegacy env.legacy key raw_ref
      ⟨r.1, p2, r.2⟩
    else
      match buildKeySpecifier p2 with
      | none => ⟨false, p2, []⟩
      | some spec => installModern env p2 spec
  else if options.version = 2 then
    installModern env p1
      (KeySpecifier.identifier (List.replicate FSCRYPT_KEY_IDENTIFIER_SIZE 0))
  else ⟨false, p1, []⟩

/-- Oracle environment for evictKey: capability flag, legacy oracles,
mountpoint open, and the FS_IOC_REMOVE_ENCRYPTION_KEY ioctl, which on
success reports removal_status_flags (none = ioctl failure). -/
structure EvictEnv where
  fsKeyringSupported : Bool
  legacy : LegacyEnv
  openOk : Bool
  removeFlags : Option Nat

/-- Result of evictKey: the returned bool, whether the legacy path ran,
the specifier handed to the remove ioctl (none if never issued), and the
two log-level outcome distinctions of the modern path: the other-users
anomaly log, and whether the busy-file reaper thread was spawned. -/
structure EvictResult where
  ok : Bool
  usedLegacy : Bool
  specIssued : Option KeySpecifier
  loggedOtherUsers : Bool
  spawnedReaper : Bool
  deriving DecidableEq

/-- evictKey (KeyUtil.cpp:367): legacy path for v1 without modern
keyring support; otherwise open the mountpoint, build a specifier from
the policy, issue FS_IOC_REMOVE_ENCRYPTION_KEY, and classify the
removal_status_flags: OTHER_USERS is logged as an anomaly, FILES_BUSY
(without OTHER_USERS) spawns the busy-file reaper; both still return true. -/
def evictKey (env : EvictEnv) (policy : EncryptionPolicy) : EvictResult :=
  if policy.options.version = 1 ∧ env.fsKeyringSupported = false then
    let r := evictKeyLegacy env.legacy policy.key_raw_ref
    ⟨r.1, true, none, false, false⟩
  else if env.openOk = false then ⟨false, false, none, false, false⟩
  else
    match buildKeySpecifier policy with
    | none => ⟨false, false, none, false, false⟩
    | some spec =>
      match env.removeFlags with
      | none => ⟨false, false, some spec, false, false⟩
      | some flags =>
        ⟨true, false, some spec,
         flags &&& FSCRYPT_KEY_REMOVAL_STATUS_FLAG_OTHER_USERS != 0,
         (flags &&& FSCRYPT_KEY_REMOVAL_STATUS_FLAG_OTHER_USERS == 0) &&
           (flags &&& FSCRYPT_KEY_REMOVAL_STATUS_FLAG_FILES_BUSY != 0)⟩

/-- Oracle environment for waitForBusyFiles, indexed by attempt number:
the mountpoint open, and the per-attempt results of the
FS_IOC_GET_ENCRYPTION_KEY_STATUS ioctl (none = ioctl error, some st =
reported status) and of FS_IOC_REMOVE_ENCRYPTION_KEY (none = ioctl
error, some flags = removal_status_flags). -/
structure ReaperEnv where
  openOk : Bool
  getStatus : Nat → Option Nat
  removeFlags : Nat → Option Nat

/-- How one run of the busy-file reaper ended. -/
inductive ReaperOutcome where
  | openFailed
  | statusError
  | statusChanged
  | removeError
  | cleared
  | timedOut
  deriving DecidableEq

/-- The while loop of waitForBusyFiles (KeyUtil.cpp:319-362).  In the
source wait_time starts at 3200 ms and doubles each iteration, so on
attempt `k` it equals 3200 * 2^k; the loop runs while that delay is at
most 51200 ms.  Returns the outcome and the list of delays slept, in
order.  Lean accepts the definition as total, which is the termination
argument for the loop. -/
def waitLoop (env : ReaperEnv) (k : Nat) : ReaperOutcome × List Nat :=
  if h : 3200 * 2 ^ k ≤ 51200 then
    match env.getStatus k with
    | none => (ReaperOutcome.statusError, [3200 * 2 ^ k])
    | some st =>
      if st ≠ FSCRYPT_KEY_STATUS_INCOMPLETELY_REMOVED then
        (ReaperOutcome.statusChanged, [3200 * 2 ^ k])
      else
        match env.removeFlags k with
        | none => (ReaperOutcome.removeError, [3200 * 2 ^ k])
        | some flags =>
          if flags &&& FSCRYPT_KEY_REMOVAL_STATUS_FLAG_OTHER_USERS ≠ 0 then
            ((waitLoop env (k + 1)).1, 3200 * 2 ^ k :: (waitLoop env (k + 1)).2)
          else if flags &&& FSCRYPT_KEY_REMOVAL_STATUS_FLAG_FILES_BUSY = 0 then
            (ReaperOutcome.cleared, [3200 * 2 ^ k])
          else
            ((waitLoop env (k + 1)).1, 3200 * 2 ^ k :: (waitLoop env (k + 1)).2)
  else (ReaperOutcome.timedOut, [])
  termination_by 5 - k
  decreasing_by
  all_goals
    have hk : k < 5 := by
      by_contra hk
      push_neg at hk
      have h32 : (2 : Nat) ^ 5 ≤ 2 ^ k := Nat.pow_le_pow_right (by norm_num) hk
      have hmul : 3200 * 2 ^ 5 ≤ 3200 * 2 ^ k := Nat.mul_le_mul_left _ h32
      norm_num at hmul
      omega
    omega

/-- waitForBusyFiles (KeyUtil.cpp:309): open the mountpoint, then run
the bounded-backoff retry loop starting at 3200 ms. -/
def waitForBusyFiles (env : ReaperEnv) : ReaperOutcome × List Nat :=
  if env.openOk = false then (ReaperOutcome.openFailed, [])
  else waitLoop env 0

/-- The full backoff schedule of the reaper. -/
def reaperDelays : List Nat := [3200, 6400, 12800, 25600, 51200]

/-- Oracle environment for retrieveOrGenerateKey: pathExists(key_path),
the storage collaborator's retrieveKey result, the generation oracles,
and whether storeKeyAtomically succeeds. -/
structure RetrieveEnv where
  pathExists : Bool
  retrieveKey : Option KeyBuffer
  genEnv : GenEnv
  storeOk : Bool

/-- Result of retrieveOrGenerateKey: the returned bool, the final key
out-parameter when the call succeeds, and whether the generation and
atomic-store collaborators were invoked. -/
structure RetrieveResult where
  ok : Bool
  key : Option KeyBuffer
  generationAttempted : Bool
  stored : Bool
  deriving DecidableEq

/-- retrieveOrGenerateKey (KeyUtil.cpp:410): if the key path exists,
delegate to retrieveKey; otherwise fail unless generation is allowed,
else generate a fresh key and persist it with storeKeyAtomically. -/
def retrieveOrGenerateKey (env : RetrieveEnv) (gen : KeyGeneration) :
    RetrieveResult :=
  if env.pathExists then
    match env.retrieveKey with
    | none => ⟨false, none, false, false⟩
    | some k => ⟨true, some k, false, false⟩
  else if gen.allow_gen = false then ⟨false, none, false, false⟩
  else
    match generateStorageKey env.genEnv gen with
    | none => ⟨false, none, true, false⟩
    | some k =>
      if env.storeOk then ⟨true, some k, true, true⟩
      else ⟨false, none, true, false⟩

end VoldKeyUtil

namespace VoldKeyUtil

/-- The legacy install loop computes "all insertions succeeded" and keeps
the successful insertions up to the first failure. -/
lemma installAliases_eq (f : String → Bool) (l : List String) :
    installAliases f l = (l.all f, l.takeWhile f) := by
  induction l with
  | nil => rfl
  | cons n rest ih =>
    cases hfn : f n <;>
      simp [installAliases, hfn, ih, List.all_cons, List.takeWhile_cons]

/-- The legacy evict loop attempts every alias and conjoins the results. -/
lemma evictAliases_eq (f : String → Bool) (l : List String) :
    evictAliases f l = (l.all f, l) := by
  induction l with
  | nil => rfl
  | cons n rest ih => simp [evictAliases, ih, List.all_cons]

/-- Claim C3: buildKeySpecifier succeeds exactly for a version-1 policy
with an 8-byte reference (descriptor-typed specifier) or a version-2
policy with a 16-byte reference (identifier-typed specifier); any other
reference length or version value is rejected. -/
theorem buildKeySpecifier_success_iff (policy : EncryptionPolicy) :
    ((buildKeySpecifier policy).isSome ↔
      (policy.options.version = 1 ∧
        policy.key_raw_ref.length = FSCRYPT_KEY_DESCRIPTOR_SIZE) ∨
      (policy.options.version = 2 ∧
        policy.key_raw_ref.length = FSCRYPT_KEY_IDENTIFIER_SIZE)) ∧
    (policy.options.version = 1 →
      policy.key_raw_ref.length = FSCRYPT_KEY_DESCRIPTOR_SIZE →
      buildKeySpecifier policy = some (KeySpecifier.descriptor policy.key_raw_ref)) ∧
    (policy.options.version = 2 →
      policy.key_raw_ref.length = FSCRYPT_KEY_IDENTIFIER_SIZE →
      buildKeySpecifier policy = some (KeySpecifier.identifier policy.key_raw_ref)) := by
  unfold buildKeySpecifier
  split_ifs with h1 h2 h3 h4 <;> simp_all

theorem buildKeySpecifier_success_iff_witness :
    buildKeySpecifier ⟨⟨1, false⟩, List.replicate 8 0⟩ =
      some (KeySpecifier.descriptor (List.replicate 8 0)) :=
  (buildKeySpecifier_success_iff ⟨⟨1, false⟩, List.replicate 8 0⟩).2.1 rfl (by decide)

/-- Claim C4: legacy install inserts the key once per filesystem-type
name, keyed "<type>:<hex-reference>" for the three types; it succeeds
exactly when every insertion succeeds, and the names actually inserted
are the successful ones up to the first failure (no rollback). -/
theorem installKeyLegacy_spec (env : LegacyEnv) (key : KeyBuffer)
    (raw_ref : List Nat)
    (hkey : key.length = FSCRYPT_MAX_KEY_SIZE)
    (hkr : env.keyringFound = true) :
    ((installKeyLegacy env key raw_ref).1 =
      (legacyKeyNames raw_ref).all env.addKeyOk) ∧
    ((installKeyLegacy env key raw_ref).2 =
      (legacyKeyNames raw_ref).takeWhile env.addKeyOk) ∧
    legacyKeyNames raw_ref =
      ["ext4:" ++ keyrefstring raw_ref, "f2fs:" ++ keyrefstring raw_ref,
       "fscrypt:" ++ keyrefstring raw_ref] := by
  simp [installKeyLegacy, fillKey, hkey, hkr, installAliases_eq,
    legacyKeyNames, NAME_PREFIXES, buildLegacyKeyName]

theorem installKeyLegacy_spec_witness :
    ((installKeyLegacy ⟨true, fun s => s != "f2fs:ab", fun _ => true⟩
        (List.replicate 64 0) [171]).1 =
      (legacyKeyNames [171]).all (fun s => s != "f2fs:ab")) ∧
    ((installKeyLegacy ⟨true, fun s => s != "f2fs:ab", fun _ => true⟩
        (List.replicate 64 0) [171]).2 =
      (legacyKeyNames [171]).takeWhile (fun s => s != "f2fs:ab")) ∧
    legacyKeyNames [171] =
      ["ext4:" ++ keyrefstring [171], "f2fs:" ++ keyrefstring [171],
       "fscrypt:" ++ keyrefstring [171]] :=
  installKeyLegacy_spec ⟨true, fun s => s != "f2fs:ab", fun _ => true⟩
    (List.replicate 64 0) [171] (by decide) rfl

/-- Claim C8: legacy evict attempts to unlink every filesystem-type
alias even when an earlier unlink failed, and returns success exactly
when all unlink attempts succeed. -/
theorem evictKeyLegacy_spec (env : LegacyEnv) (raw_ref : List Nat)
    (hkr : env.keyringFound = true) :
    ((evictKeyLegacy env raw_ref).2 = legacyKeyNames raw_ref) ∧
    ((evictKeyLegacy env raw_ref).1 =
      (legacyKeyNames raw_ref).all env.unlinkOk) := by
  simp [evictKeyLegacy, hkr, evictAliases_eq]

theorem evictKeyLegacy_spec_witness :
    ((evictKeyLegacy ⟨true, fun _ => true, fun s => s != "ext4:ab"⟩ [171]).2 =
      legacyKeyNames [171]) ∧
    ((evictKeyLegacy ⟨true, fun _ => true, fun s => s != "ext4:ab"⟩ [171]).1 =
      (legacyKeyNames [171]).all (fun s => s != "ext4:ab")) :=
  evictKeyLegacy_spec ⟨true, fun _ => true, fun s => s != "ext4:ab"⟩ [171] rfl

end VoldKeyUtil

namespace VoldKeyUtil

/-- Claim C7: generateStorageKey fails exactly when generation is
disallowed, or a hardware-wrapped key is requested with a size other
than FSCRYPT_MAX_KEY_SIZE (in which case it fails for every environment,
so before any hardware call), or the hardware collaborator / random
source fails; on success the key has the requested size (given that the
collaborators honour their size contracts). -/
theorem generateStorageKey_spec (env : GenEnv) (gen : KeyGeneration) :
    (generateStorageKey env gen = none ↔
      gen.allow_gen = false ∨
      (gen.use_hw_wrapped_key = true ∧ gen.keysize ≠ FSCRYPT_MAX_KEY_SIZE) ∨
      (gen.allow_gen = true ∧ gen.use_hw_wrapped_key = true ∧
        gen.keysize = FSCRYPT_MAX_KEY_SIZE ∧ env.generateWrapped = none) ∨
      (gen.allow_gen = true ∧ gen.use_hw_wrapped_key = false ∧
        env.randFill gen.keysize = none)) ∧
    (gen.use_hw_wrapped_key = true → gen.keysize ≠ FSCRYPT_MAX_KEY_SIZE →
      ∀ env2 : GenEnv, generateStorageKey env2 gen = none) ∧
    ((∀ n b, env.randFill n = some b → b.length = n) →
      (∀ w, env.generateWrapped = some w → w.length = FSCRYPT_MAX_KEY_SIZE) →
      ∀ k, generateStorageKey env gen = some k → k.length = gen.keysize) := by
  obtain ⟨ks, ag, hw⟩ := gen
  refine ⟨?_, ?_, ?_⟩
  · cases ag <;> cases hw <;>
      by_cases hks : ks = FSCRYPT_MAX_KEY_SIZE <;>
      simp_all [generateStorageKey, randomKey]
  · intro hhw hks env2
    simp_all [generateStorageKey]
  · intro hrand hwrap k hk
    cases ag <;> cases hw <;>
      by_cases hks : ks = FSCRYPT_MAX_KEY_SIZE <;>
      simp_all [generateStorageKey, randomKey] <;>
      exact hrand _ k hk

theorem generateStorageKey_spec_witness :
    generateStorageKey ⟨fun n => some (List.replicate n 7), some (List.replicate 64 9)⟩
      ⟨32, true, true⟩ = none :=
  (generateStorageKey_spec
      ⟨fun n => some (List.replicate n 7), some (List.replicate 64 9)⟩
      ⟨32, true, true⟩).2.1 rfl (by decide)
    ⟨fun n => some (List.replicate n 7), some (List.replicate 64 9)⟩

/-- Claim C6: retrieveOrGenerateKey is a three-way branch: when the key
path exists the result is the storage collaborator's retrieve result and
no generation is attempted; when it does not exist and generation is
allowed, a freshly generated key is stored atomically and returned; when
it does not exist and generation is disallowed, the operation fails. -/
theorem retrieveOrGenerateKey_spec (env : RetrieveEnv) (gen : KeyGeneration) :
    (env.pathExists = true →
      (retrieveOrGenerateKey env gen).generationAttempted = false ∧
      (env.retrieveKey = none → retrieveOrGenerateKey env gen = ⟨false, none, false, false⟩) ∧
      (∀ k, env.retrieveKey = some k →
        retrieveOrGenerateKey env gen = ⟨true, some k, false, false⟩)) ∧
    (env.pathExists = false → gen.allow_gen = true →
      ∀ k, generateStorageKey env.genEnv gen = some k → env.storeOk = true →
        retrieveOrGenerateKey env gen = ⟨true, some k, true, true⟩) ∧
    (env.pathExists = false → gen.allow_gen = false →
      retrieveOrGenerateKey env gen = ⟨false, none, false, false⟩) := by
  refine ⟨fun hp => ?_, fun hp hg k hk hs => ?_, fun hp hg => ?_⟩
  · cases hrk : env.retrieveKey <;> simp_all [retrieveOrGenerateKey]
  · simp_all [retrieveOrGenerateKey]
  · simp_all [retrieveOrGenerateKey]

theorem retrieveOrGenerateKey_spec_witness :
    retrieveOrGenerateKey
        ⟨false, some [1], ⟨fun n => some (List.replicate n 7), none⟩, true⟩
        ⟨4, true, false⟩ =
      ⟨true, some [7, 7, 7, 7], true, true⟩ :=
  (retrieveOrGenerateKey_spec
      ⟨false, some [1], ⟨fun n => some (List.replicate n 7), none⟩, true⟩
      ⟨4, true, false⟩).2.1 rfl rfl [7, 7, 7, 7] rfl rfl

end VoldKeyUtil

namespace VoldKeyUtil

/-- For a version-1 policy buildKeySpecifier never yields an
identifier-typed specifier. -/
lemma buildKeySpecifier_v1_not_identifier (p : EncryptionPolicy)
    (hv : p.options.version = 1) (b : List Nat) :
    buildKeySpecifier p ≠ some (KeySpecifier.identifier b) := by
  simp only [buildKeySpecifier, hv, if_pos]
  split <;> simp

/-- installModern never changes the policy when the specifier is
descriptor-typed. -/
lemma installModern_policy_descriptor (env : InstallEnv) (p : EncryptionPolicy)
    (b : List Nat) :
    (installModern env p (KeySpecifier.descriptor b)).policy = p := by
  cases h : env.addKeyIoctl <;> by_cases ho : env.openOk = false <;>
    simp [installModern, ho, h]

/-- After a version-1 installKey call the policy out-parameter holds the
requested options and the locally derived key reference, on every path. -/
lemma installKey_v1_policy (env : InstallEnv) (options : EncryptionOptions)
    (key : KeyBuffer) (policy0 : EncryptionPolicy)
    (hv : options.version = 1) :
    (installKey env options key policy0).policy =
      ⟨options,
        if options.use_hw_wrapped_key then
          generateKeyRef env.sha512 key (key.length / 2)
        else generateKeyRef env.sha512 key key.length⟩ := by
  simp only [installKey, hv, if_pos, ite_true, ite_false]
  cases hfs : env.fsKeyringSupported
  · simp
  · simp only [Bool.true_eq_false, if_false]
    generalize hbs : buildKeySpecifier _ = bs
    cases bs with
    | none => rfl
    | some spec =>
      cases spec with
      | descriptor b => exact installModern_policy_descriptor env _ b
      | identifier b => exact absurd hbs (buildKeySpecifier_v1_not_identifier _ hv b)

end VoldKeyUtil

namespace VoldKeyUtil

/-- Claim C5: for a version-1 install the key reference stored in the
resulting policy is the double-hash-derived reference over the first
key.size()/2 bytes of the raw key when the key is hardware-wrapped, and
over the full key buffer otherwise. -/
theorem installKey_v1_keyref (env : InstallEnv) (options : EncryptionOptions)
    (key : KeyBuffer) (policy0 : EncryptionPolicy)
    (hv : options.version = 1) :
    (options.use_hw_wrapped_key = true →
      (installKey env options key policy0).policy.key_raw_ref =
        generateKeyRef env.sha512 key (key.length / 2)) ∧
    (options.use_hw_wrapped_key = false →
      (installKey env options key policy0).policy.key_raw_ref =
        generateKeyRef env.sha512 key key.length) := by
  rw [installKey_v1_policy env options key policy0 hv]
  constructor <;> intro hw <;> simp [hw]

theorem installKey_v1_keyref_witness :
    (installKey ⟨fun l => List.replicate 64 l.length, true,
        ⟨true, fun _ => true, fun _ => true⟩, true, some (List.replicate 16 9)⟩
      ⟨1, true⟩ [5, 6, 7, 8] ⟨⟨0, false⟩, []⟩).policy.key_raw_ref =
      generateKeyRef (fun l => List.replicate 64 l.length) [5, 6, 7, 8] 2 :=
  (installKey_v1_keyref ⟨fun l => List.replicate 64 l.length, true,
      ⟨true, fun _ => true, fun _ => true⟩, true, some (List.replicate 16 9)⟩
    ⟨1, true⟩ [5, 6, 7, 8] ⟨⟨0, false⟩, []⟩ rfl).1 rfl

/-- Claim C9: installKey is not atomic in its policy out-parameter on
error: with a version-1 request whose mountpoint open fails it returns
false having already overwritten the caller's options and key reference,
and with an invalid version it returns false having already overwritten
the caller's options. -/
theorem installKey_not_atomic_on_error :
    ((installKey ⟨fun _ => List.replicate 64 1, true,
         ⟨true, fun _ => true, fun _ => true⟩, false, none⟩
       ⟨1, false⟩ [5] ⟨⟨2, false⟩, []⟩).ok = false ∧
     (installKey ⟨fun _ => List.replicate 64 1, true,
         ⟨true, fun _ => true, fun _ => true⟩, false, none⟩
       ⟨1, false⟩ [5] ⟨⟨2, false⟩, []⟩).policy ≠ ⟨⟨2, false⟩, []⟩) ∧
    ((installKey ⟨fun _ => List.replicate 64 1, true,
         ⟨true, fun _ => true, fun _ => true⟩, true, some (List.replicate 16 9)⟩
       ⟨3, false⟩ [5] ⟨⟨2, false⟩, []⟩).ok = false ∧
     (installKey ⟨fun _ => List.replicate 64 1, true,
         ⟨true, fun _ => true, fun _ => true⟩, true, some (List.replicate 16 9)⟩
       ⟨3, false⟩ [5] ⟨⟨2, false⟩, []⟩).policy.options = ⟨3, false⟩) := by
  refine ⟨⟨by decide, by decide⟩, ⟨by decide, by decide⟩⟩

/-- Claim C10: without modern keyring support a version-1 installKey
fails, inserting nothing, whenever the raw key is not exactly
FSCRYPT_MAX_KEY_SIZE bytes (fillKey rejects it before the keyring is
touched); the modern ioctl path accepts a 32-byte key. -/
theorem installKey_legacy_size_precondition :
    (∀ (env : InstallEnv) (options : EncryptionOptions) (key : KeyBuffer)
        (policy0 : EncryptionPolicy),
      env.fsKeyringSupported = false → options.version = 1 →
      key.length ≠ FSCRYPT_MAX_KEY_SIZE →
      (installKey env options key policy0).ok = false ∧
      (installKey env options key policy0).legacyInserted = []) ∧
    (installKey ⟨fun _ => List.replicate 64 3, true,
        ⟨true, fun _ => true, fun _ => true⟩, true, some (List.replicate 16 9)⟩
      ⟨1, false⟩ (List.replicate 32 7) ⟨⟨0, false⟩, []⟩).ok = true := by
  constructor
  · intro env options key policy0 hfs hv hlen
    simp [installKey, hv, hfs, installKeyLegacy, fillKey, hlen]
  · decide

theorem installKey_legacy_size_precondition_witness :
    (installKey ⟨fun _ => List.replicate 64 3, false,
        ⟨true, fun _ => true, fun _ => true⟩, true, some (List.replicate 16 9)⟩
      ⟨1, false⟩ [1, 2, 3] ⟨⟨0, false⟩, []⟩).ok = false ∧
    (installKey ⟨fun _ => List.replicate 64 3, false,
        ⟨true, fun _ => true, fun _ => true⟩, true, some (List.replicate 16 9)⟩
      ⟨1, false⟩ [1, 2, 3] ⟨⟨0, false⟩, []⟩).legacyInserted = [] :=
  installKey_legacy_size_precondition.1
    ⟨fun _ => List.replicate 64 3, false,
      ⟨true, fun _ => true, fun _ => true⟩, true, some (List.replicate 16 9)⟩
    ⟨1, false⟩ [1, 2, 3] ⟨⟨0, false⟩, []⟩ rfl rfl (by decide)

end VoldKeyUtil

namespace VoldKeyUtil

/-- Claim C1: on the modern path evictKey builds the specifier from the
policy and issues the remove-key ioctl with it; an ioctl failure returns
false, and a successful ioctl returns true while distinguishing the
three removal outcomes: fully removed (no flag), still held by other
users (logged as an anomaly), and blocked by open files (spawns the
busy-file reaper). -/
theorem evictKey_modern_spec (env : EvictEnv) (policy : EncryptionPolicy)
    (spec : KeySpecifier)
    (hpath : ¬(policy.options.version = 1 ∧ env.fsKeyringSupported = false))
    (hopen : env.openOk = true)
    (hspec : buildKeySpecifier policy = some spec) :
    ((evictKey env policy).specIssued = some spec) ∧
    ((evictKey env policy).usedLegacy = false) ∧
    (env.removeFlags = none → (evictKey env policy).ok = false) ∧
    (∀ flags, env.removeFlags = some flags →
      (evictKey env policy).ok = true ∧
      ((evictKey env policy).loggedOtherUsers = true ↔
        flags &&& FSCRYPT_KEY_REMOVAL_STATUS_FLAG_OTHER_USERS ≠ 0) ∧
      ((evictKey env policy).spawnedReaper = true ↔
        (flags &&& FSCRYPT_KEY_REMOVAL_STATUS_FLAG_OTHER_USERS = 0 ∧
         flags &&& FSCRYPT_KEY_REMOVAL_STATUS_FLAG_FILES_BUSY ≠ 0))) := by
  cases hrf : env.removeFlags <;>
    simp [evictKey, hpath, hopen, hspec, hrf]

theorem evictKey_modern_spec_witness :
    ((evictKey ⟨true, ⟨true, fun _ => true, fun _ => true⟩, true, some 1⟩
        ⟨⟨2, false⟩, List.replicate 16 4⟩).ok = true) ∧
    ((evictKey ⟨true, ⟨true, fun _ => true, fun _ => true⟩, true, some 1⟩
        ⟨⟨2, false⟩, List.replicate 16 4⟩).loggedOtherUsers = true ↔
      1 &&& FSCRYPT_KEY_REMOVAL_STATUS_FLAG_OTHER_USERS ≠ 0) ∧
    ((evictKey ⟨true, ⟨true, fun _ => true, fun _ => true⟩, true, some 1⟩
        ⟨⟨2, false⟩, List.replicate 16 4⟩).spawnedReaper = true ↔
      (1 &&& FSCRYPT_KEY_REMOVAL_STATUS_FLAG_OTHER_USERS = 0 ∧
       1 &&& FSCRYPT_KEY_REMOVAL_STATUS_FLAG_FILES_BUSY ≠ 0)) :=
  (evictKey_modern_spec ⟨true, ⟨true, fun _ => true, fun _ => true⟩, true, some 1⟩
      ⟨⟨2, false⟩, List.replicate 16 4⟩
      (KeySpecifier.identifier (List.replicate 16 4))
      (by decide) rfl (by decide)).2.2.2 1 rfl

end VoldKeyUtil

namespace VoldKeyUtil

/-- The loop condition 3200 * 2^k ≤ 51200 bounds the attempt index by 5. -/
lemma waitLoop_cond_bound {k : Nat} (h : 3200 * 2 ^ k ≤ 51200) : k < 5 := by
  by_contra hk
  push_neg at hk
  have h32 : (2 : Nat) ^ 5 ≤ 2 ^ k := Nat.pow_le_pow_right (by norm_num) hk
  have hmul : 3200 * 2 ^ 5 ≤ 3200 * 2 ^ k := Nat.mul_le_mul_left _ h32
  norm_num at hmul
  omega

/-- Dropping k delays from the schedule exposes 3200 * 2^k as the next one. -/
lemma reaperDelays_drop {k : Nat} (h : 3200 * 2 ^ k ≤ 51200) :
    reaperDelays.drop k = (3200 * 2 ^ k) :: reaperDelays.drop (k + 1) := by
  have hk : k < 5 := waitLoop_cond_bound h
  interval_cases k <;> decide

/-- The delays slept by the loop from attempt k onward are an initial
segment of the remaining schedule. -/
lemma waitLoop_delays_take (env : ReaperEnv) :
    ∀ (m k : Nat), 5 - k ≤ m → ∃ n, (waitLoop env k).2 = (reaperDelays.drop k).take n := by
  intro m
  induction m with
  | zero =>
    intro k hk
    have hcond : ¬ 3200 * 2 ^ k ≤ 51200 := fun h =>
      absurd (waitLoop_cond_bound h) (by omega)
    rw [waitLoop, dif_neg hcond]
    exact ⟨0, by simp⟩
  | succ m ih =>
    intro k hk
    by_cases hcond : 3200 * 2 ^ k ≤ 51200
    · have hk5 : k < 5 := waitLoop_cond_bound hcond
      have hdrop := reaperDelays_drop hcond
      obtain ⟨n, hn⟩ := ih (k + 1) (by omega)
      rw [waitLoop, dif_pos hcond]
      cases hgs : env.getStatus k with
      | none => exact ⟨1, by simp [hdrop]⟩
      | some st =>
        by_cases hst : st ≠ FSCRYPT_KEY_STATUS_INCOMPLETELY_REMOVED
        · exact ⟨1, by simp [hst, hdrop]⟩
        · cases hrf : env.removeFlags k with
          | none => exact ⟨1, by simp [hst, hrf, hdrop]⟩
          | some flags =>
            by_cases hou : flags &&& FSCRYPT_KEY_REMOVAL_STATUS_FLAG_OTHER_USERS ≠ 0
            · exact ⟨n + 1, by simp [hst, hrf, hou, hdrop, hn]⟩
            · by_cases hfb : flags &&& FSCRYPT_KEY_REMOVAL_STATUS_FLAG_FILES_BUSY = 0
              · exact ⟨1, by simp [hst, hrf, hou, hfb, hdrop]⟩
              · exact ⟨n + 1, by simp [hst, hrf, hou, hfb, hdrop, hn]⟩
    · rw [waitLoop, dif_neg hcond]
      exact ⟨0, by simp⟩

end VoldKeyUtil

namespace VoldKeyUtil

/-- When every status check reports "incompletely removed" and every
remove reports busy files, the loop performs all five attempts. -/
lemma waitLoop_busy (env : ReaperEnv)
    (hs : ∀ j, env.getStatus j = some FSCRYPT_KEY_STATUS_INCOMPLETELY_REMOVED)
    (hr : ∀ j, env.removeFlags j = some FSCRYPT_KEY_REMOVAL_STATUS_FLAG_FILES_BUSY) :
    waitLoop env 0 = (ReaperOutcome.timedOut, reaperDelays) := by
  have e5 : waitLoop env 5 = (ReaperOutcome.timedOut, []) := by
    rw [waitLoop, dif_neg (by norm_num)]
  have e4 : waitLoop env 4 = (ReaperOutcome.timedOut, [51200]) := by
    rw [waitLoop, dif_pos (by norm_num)]
    simp [hs 4, hr 4, e5, FSCRYPT_KEY_STATUS_INCOMPLETELY_REMOVED,
      FSCRYPT_KEY_REMOVAL_STATUS_FLAG_FILES_BUSY,
      FSCRYPT_KEY_REMOVAL_STATUS_FLAG_OTHER_USERS]
  have e3 : waitLoop env 3 = (ReaperOutcome.timedOut, [25600, 51200]) := by
    rw [waitLoop, dif_pos (by norm_num)]
    simp [hs 3, hr 3, e4, FSCRYPT_KEY_STATUS_INCOMPLETELY_REMOVED,
      FSCRYPT_KEY_REMOVAL_STATUS_FLAG_FILES_BUSY,
      FSCRYPT_KEY_REMOVAL_STATUS_FLAG_OTHER_USERS]
  have e2 : waitLoop env 2 = (ReaperOutcome.timedOut, [12800, 25600, 51200]) := by
    rw [waitLoop, dif_pos (by norm_num)]
    simp [hs 2, hr 2, e3, FSCRYPT_KEY_STATUS_INCOMPLETELY_REMOVED,
      FSCRYPT_KEY_REMOVAL_STATUS_FLAG_FILES_BUSY,
      FSCRYPT_KEY_REMOVAL_STATUS_FLAG_OTHER_USERS]
  have e1 : waitLoop env 1 = (ReaperOutcome.timedOut, [6400, 12800, 25600, 51200]) := by
    rw [waitLoop, dif_pos (by norm_num)]
    simp [hs 1, hr 1, e2, FSCRYPT_KEY_STATUS_INCOMPLETELY_REMOVED,
      FSCRYPT_KEY_REMOVAL_STATUS_FLAG_FILES_BUSY,
      FSCRYPT_KEY_REMOVAL_STATUS_FLAG_OTHER_USERS]
  rw [waitLoop, dif_pos (by norm_num)]
  simp [hs 0, hr 0, e1, reaperDelays, FSCRYPT_KEY_STATUS_INCOMPLETELY_REMOVED,
    FSCRYPT_KEY_REMOVAL_STATUS_FLAG_FILES_BUSY,
    FSCRYPT_KEY_REMOVAL_STATUS_FLAG_OTHER_USERS]

/-- Claim C2: the reaper's sleep delays are always an initial segment of
3200, 6400, 12800, 25600, 51200 ms in that order — so at most 5 attempts
are made, none once the would-be delay exceeds 51200 ms — and when every
attempt finds the key incompletely removed with files still busy, all
five delays are used and the loop ends in the timed-out diagnostic.
(The loop terminates on every input: waitLoop is accepted as a total
function.) -/
theorem waitForBusyFiles_backoff (env : ReaperEnv) :
    (∃ n, (waitForBusyFiles env).2 = reaperDelays.take n) ∧
    (waitForBusyFiles env).2.length ≤ 5 ∧
    (env.openOk = true →
      (∀ j, env.getStatus j = some FSCRYPT_KEY_STATUS_INCOMPLETELY_REMOVED) →
      (∀ j, env.removeFlags j = some FSCRYPT_KEY_REMOVAL_STATUS_FLAG_FILES_BUSY) →
      waitForBusyFiles env = (ReaperOutcome.timedOut, reaperDelays)) := by
  have hpre : ∃ n, (waitForBusyFiles env).2 = reaperDelays.take n := by
    cases ho : env.openOk
    · exact ⟨0, by simp [waitForBusyFiles, ho]⟩
    · obtain ⟨n, hn⟩ := waitLoop_delays_take env 5 0 (by omega)
      exact ⟨n, by simpa [waitForBusyFiles, ho] using hn⟩
  refine ⟨hpre, ?_, fun ho hs hr => ?_⟩
  · obtain ⟨n, hn⟩ := hpre
    rw [hn]
    calc (reaperDelays.take n).length ≤ reaperDelays.length := by
          rw [List.length_take]
          omega
      _ = 5 := by decide
  · simp [waitForBusyFiles, ho, waitLoop_busy env hs hr]

theorem waitForBusyFiles_backoff_witness :
    waitForBusyFiles ⟨true, fun _ => some 3, fun _ => some 1⟩ =
      (ReaperOutcome.timedOut, reaperDelays) :=
  (waitForBusyFiles_backoff ⟨true, fun _ => some 3, fun _ => some 1⟩).2.2
    rfl (fun _ => rfl) (fun _ => rfl)

end VoldKeyUtil
